import Mathlib

/-!
Verification of the credit-based promotion marketplace.

The development shallowly embeds the persistent data model (database.py)
and the handler logic (handlers.py) of the repository: each SQL table is a
list of rows, each database helper is a pure function on a DB value, and
each handler that the claims touch is a pure function from its inputs and
the current DB to the new DB together with the visible reply.  Randomness
(ORDER BY RANDOM) is modelled by quantifying over an arbitrary permutation
of the eligible row set, and the external messaging transport is modelled
by a list of per-target success booleans.
-/

namespace PromoBot

/-- One row of the users table (database.py, CREATE TABLE users).
Fields not consulted by any verified operation are omitted; the SQL
defaults of the kept columns are reproduced in add_user below. -/
structure UserRow where
  user_id : Int
  username : String
  credits : Int
  referral_credits : Int
  inviter_id : Option Int
  is_premium : Bool
  is_banned : Bool
  daily_promo_runs : Int
  image_broadcasts_left : Int
  normal_promo_text : Option String
  normal_promo_url : Option String
  normal_promo_chat_id : Option Int
  normal_promo_message_id : Option Int
  force_join_channel_id : Option Int
  clicks_received : Int
  deriving Repr, DecidableEq

/-- One row of the promotions table (database.py, CREATE TABLE promotions). -/
structure PromoRow where
  promo_id : Int
  promoter_user_id : Int
  promo_type : String
  channel_id : Option Int
  promo_text : Option String
  promo_url : Option String
  budget : Int
  promo_chat_id : Option Int
  promo_message_id : Option Int
  deriving Repr, DecidableEq

/-- One row of the groups table (database.py, CREATE TABLE groups). -/
structure GroupRow where
  group_id : Int
  added_by_user_id : Int
  is_admin : Bool
  deriving Repr, DecidableEq

/-- The persistent store: the four tables the claims touch, plus the
AUTOINCREMENT counter of the promotions table.  claimed_promos rows are
(user_id, promo_id) pairs, the table's composite primary key. -/
structure DB where
  users : List UserRow
  promotions : List PromoRow
  claimed_promos : List (Int × Int)
  groups : List GroupRow
  next_promo_id : Int
  deriving Repr, DecidableEq

/-- Primary-key well-formedness of the store: each table's key column is
duplicate free, exactly what SQLite's PRIMARY KEY constraints guarantee. -/
def DBWF (db : DB) : Prop :=
  (db.users.map (·.user_id)).Nodup ∧
  (db.groups.map (·.group_id)).Nodup ∧
  (db.promotions.map (·.promo_id)).Nodup ∧
  db.claimed_promos.Nodup

instance (db : DB) : Decidable (DBWF db) := by unfold DBWF; infer_instance

/-- database.get_user: SELECT * FROM users WHERE user_id = ? (first match). -/
def get_user (db : DB) (uid : Int) : Option UserRow :=
  db.users.find? (fun u => u.user_id = uid)

/-- The row inserted for a fresh user: the schema defaults of the users
table (credits 5, referral_credits 0, 2 daily runs, 100 image broadcasts). -/
def newUserRow (uid : Int) (uname : String) (inviter : Option Int) : UserRow :=
  { user_id := uid, username := uname, credits := 5, referral_credits := 0,
    inviter_id := inviter, is_premium := false, is_banned := false,
    daily_promo_runs := 2, image_broadcasts_left := 100,
    normal_promo_text := none, normal_promo_url := none,
    normal_promo_chat_id := none, normal_promo_message_id := none,
    force_join_channel_id := none, clicks_received := 0 }

/-- database.add_user: INSERT OR IGNORE INTO users (user_id, username,
inviter_id); all other columns take their schema defaults. -/
def add_user (db : DB) (uid : Int) (uname : String) (inviter : Option Int) : DB :=
  if db.users.any (fun u => u.user_id = uid) then db
  else { db with users := db.users ++ [newUserRow uid uname inviter] }

/-- database.update_user_credits: UPDATE users SET credits = credits + ?
WHERE user_id = ?. -/
def update_user_credits (db : DB) (uid amount : Int) : DB :=
  { db with users := db.users.map fun u =>
      if u.user_id = uid then { u with credits := u.credits + amount } else u }

/-- database.update_referral_credits: UPDATE users SET referral_credits =
referral_credits + ? WHERE user_id = ?. -/
def update_referral_credits (db : DB) (uid amount : Int) : DB :=
  { db with users := db.users.map fun u =>
      if u.user_id = uid then { u with referral_credits := u.referral_credits + amount } else u }

/-- database.use_promo_run: UPDATE users SET daily_promo_runs =
daily_promo_runs - 1 WHERE user_id = ? AND daily_promo_runs > 0. -/
def use_promo_run (db : DB) (uid : Int) : DB :=
  { db with users := db.users.map fun u =>
      if u.user_id = uid ∧ u.daily_promo_runs > 0
      then { u with daily_promo_runs := u.daily_promo_runs - 1 } else u }

/-- database.use_image_broadcast_run: UPDATE users SET image_broadcasts_left =
image_broadcasts_left - ? WHERE user_id = ?. -/
def use_image_broadcast_run (db : DB) (uid count : Int) : DB :=
  { db with users := db.users.map fun u =>
      if u.user_id = uid
      then { u with image_broadcasts_left := u.image_broadcasts_left - count } else u }

/-- database.increment_clicks_received: UPDATE users SET clicks_received =
clicks_received + 1 WHERE user_id = ?. -/
def increment_clicks_received (db : DB) (uid : Int) : DB :=
  { db with users := db.users.map fun u =>
      if u.user_id = uid then { u with clicks_received := u.clicks_received + 1 } else u }

/-- database.add_promotion: INSERT INTO promotions (...); promo_id is the
AUTOINCREMENT key. -/
def add_promotion (db : DB) (uid : Int) (promoType : String) (budget : Int)
    (channelId : Option Int) (text url : Option String)
    (chatId msgId : Option Int) : DB :=
  { db with
    promotions := db.promotions ++
      [{ promo_id := db.next_promo_id, promoter_user_id := uid,
         promo_type := promoType, channel_id := channelId, promo_text := text,
         promo_url := url, budget := budget, promo_chat_id := chatId,
         promo_message_id := msgId }],
    next_promo_id := db.next_promo_id + 1 }

/-- database.claim_promo: INSERT OR IGNORE INTO claimed_promos; the pair is
the primary key, so inserting an existing pair is a silent no-op. -/
def claim_promo (db : DB) (uid pid : Int) : DB :=
  if (uid, pid) ∈ db.claimed_promos then db
  else { db with claimed_promos := db.claimed_promos ++ [(uid, pid)] }

/-- database.has_claimed_promo: SELECT 1 FROM claimed_promos WHERE
user_id = ? AND promo_id = ?, as a boolean. -/
def has_claimed_promo (db : DB) (uid pid : Int) : Bool :=
  decide ((uid, pid) ∈ db.claimed_promos)

/-- database.decrement_promo_budget: UPDATE promotions SET budget = budget - 1
WHERE promo_id = ? AND budget > 0. -/
def decrement_promo_budget (db : DB) (pid : Int) : DB :=
  { db with promotions := db.promotions.map fun p =>
      if p.promo_id = pid ∧ p.budget > 0 then { p with budget := p.budget - 1 } else p }

/-- The budget of the (first) promotion row with the given id. -/
def getBudget (db : DB) (pid : Int) : Option Int :=
  (db.promotions.find? (fun p => p.promo_id = pid)).map (·.budget)

/-- N repeated calls of decrement_promo_budget on the same promotion. -/
def decrementN (db : DB) (pid : Int) : Nat → DB
  | 0 => db
  | n + 1 => decrement_promo_budget (decrementN db pid n) pid

/-- The WHERE clause of database.get_random_promotion: promotions with
positive budget, not owned by the requesting user, and carrying no claim
row for the requesting user (the LEFT JOIN ... IS NULL condition). -/
def eligiblePromos (db : DB) (uid : Int) : List PromoRow :=
  db.promotions.filter fun p =>
    p.promoter_user_id ≠ uid ∧ (uid, p.promo_id) ∉ db.claimed_promos ∧ p.budget > 0

/-- database.get_random_promotion: ORDER BY RANDOM() LIMIT 1 over the
eligible rows.  The random draw is modelled by an arbitrary index pick;
fetchone yields none exactly when the eligible set is empty. -/
def get_random_promotion (db : DB) (uid : Int) (pick : Nat) : Option PromoRow :=
  let elig := eligiblePromos db uid
  elig.get? (pick % elig.length)

/-- The WHERE clause of database.get_random_groups: admin-elevated groups. -/
def admin_groups (db : DB) : List GroupRow :=
  db.groups.filter (·.is_admin = true)

/-- database.get_random_groups: ORDER BY RANDOM() LIMIT ?.  The randomized
order is an arbitrary permutation of admin_groups supplied by the caller of
the theorem; the function takes the first limit rows and projects ids. -/
def get_random_groups (ordered : List GroupRow) (limit : Nat) : List Int :=
  (ordered.take limit).map (·.group_id)

/-- The WHERE clause of database.get_random_users_for_broadcast: non-banned
users other than the excluded one. -/
def eligible_broadcast_users (db : DB) (excludeId : Int) : List UserRow :=
  db.users.filter fun u => u.user_id ≠ excludeId ∧ u.is_banned = false

/-- database.get_random_users_for_broadcast: ORDER BY RANDOM() LIMIT ? over
the eligible users, projecting user ids. -/
def get_random_users_for_broadcast (ordered : List UserRow) (limit : Nat) : List Int :=
  (ordered.take limit).map (·.user_id)

/-- database.execute_daily_reset: the three sequential UPDATE statements,
in source order: credits += referral_credits for everyone, then
daily_promo_runs = 2 for non-premium, then daily_promo_runs = 5 for premium. -/
def execute_daily_reset (db : DB) : DB :=
  let db1 : DB := { db with users := db.users.map fun u =>
      { u with credits := u.credits + u.referral_credits } }
  let db2 : DB := { db1 with users := db1.users.map fun u =>
      if u.is_premium = false then { u with daily_promo_runs := 2 } else u }
  { db2 with users := db2.users.map fun u =>
      if u.is_premium = true then { u with daily_promo_runs := 5 } else u }

/-! Handler layer (handlers.py).  Each handler the claims touch is embedded
as a pure function; Python exceptions that the handler does not catch are
surfaced through an Except result. -/

/-- A Python exception escaping the embedded code. -/
inductive PyExn where
  | valueError
  | typeError
  deriving Repr, DecidableEq

instance instDecEqExcept {ε α : Type} [DecidableEq ε] [DecidableEq α] :
    DecidableEq (Except ε α) := fun x y =>
  match x, y with
  | .error e, .error f =>
    if h : e = f then .isTrue (congrArg Except.error h)
    else .isFalse (fun hc => h (Except.error.inj hc))
  | .ok a, .ok b =>
    if h : a = b then .isTrue (congrArg Except.ok h)
    else .isFalse (fun hc => h (Except.ok.inj hc))
  | .error _, .ok _ => .isFalse (fun hc => Except.noConfusion hc)
  | .ok _, .error _ => .isFalse (fun hc => Except.noConfusion hc)

/-- Whitespace stripped by the Python str.strip preprocessing of int(). -/
def isPySpace (c : Char) : Bool :=
  c = ' ' ∨ c = '\t' ∨ c = '\n' ∨ c = '\r' ∨ c = '\x0b' ∨ c = '\x0c'

/-- Leading and trailing whitespace removal over characters. -/
def pyStrip (cs : List Char) : List Char :=
  ((cs.dropWhile isPySpace).reverse.dropWhile isPySpace).reverse

/-- Decimal digit test for the int() model. -/
def isAsciiDigit (c : Char) : Bool := '0' ≤ c ∧ c ≤ '9'

/-- Value of a digit list, most significant first (all digits assumed). -/
def digitsVal (cs : List Char) : Nat :=
  cs.foldl (fun acc c => acc * 10 + (c.toNat - '0'.toNat)) 0

/-- Parses a nonempty all-digit character list; none otherwise. -/
def parseDigits (cs : List Char) : Option Nat :=
  if cs ≠ [] ∧ cs.all isAsciiDigit then some (digitsVal cs) else none

/-- Model of the Python built-in int() on characters: surrounding
whitespace stripped, an optional single sign, then one or more decimal
digits; none models a ValueError.  Underscore digit separators and
non-ASCII digits of the CPython parser are not modelled; no claim depends
on them. -/
def pyIntChars? (cs : List Char) : Option Int :=
  match pyStrip cs with
  | '-' :: rest => (parseDigits rest).map (fun n => -(n : Int))
  | '+' :: rest => (parseDigits rest).map (fun n => (n : Int))
  | l => (parseDigits l).map (fun n => (n : Int))

/-- Model of the Python built-in int(str). -/
def pyInt? (s : String) : Option Int := pyIntChars? s.toList

/-- Python str.split with a one-character separator, over characters:
always returns one more piece than there are separators. -/
def pySplit (sep : Char) : List Char → List (List Char)
  | [] => [[]]
  | c :: rest =>
    let r := pySplit sep rest
    if c = sep then [] :: r
    else
      match r with
      | [] => [[c]]
      | h :: t => (c :: h) :: t

/-- Python str.startswith over characters. -/
def pyStartsWith (s pre : String) : Bool :=
  pre.toList.isPrefixOf s.toList

/-- handlers.handle_claim_promo lines 119-120: data.split and the two int()
conversions.  Either a wrong field count (tuple unpack) or a non-numeric
field raises ValueError, which the handler does not catch. -/
def decode_claim_token (data : String) : Except PyExn (Int × Int) :=
  match pySplit '_' data.toList with
  | [_, pidStr, promoterStr] =>
    match pyIntChars? pidStr, pyIntChars? promoterStr with
    | some pid, some promoter => .ok (pid, promoter)
    | _, _ => .error .valueError
  | _ => .error .valueError

/-- handlers.handle_verify_promo lines 135-136: the four-field token. -/
def decode_verify_token (data : String) : Except PyExn (Int × Int × Int) :=
  match pySplit '_' data.toList with
  | [_, pidStr, chanStr, promoterStr] =>
    match pyIntChars? pidStr, pyIntChars? chanStr, pyIntChars? promoterStr with
    | some pid, some chan, some promoter => .ok (pid, chan, promoter)
    | _, _, _ => .error .valueError
  | _ => .error .valueError

/-- The user-visible outcome of a claim-button press. -/
inductive ClaimReply where
  | alreadyCompleted
  | success (reward : Int)
  deriving Repr, DecidableEq

/-- handlers.handle_claim_promo after token decoding: the pre-check on
has_claimed_promo, then claim insert, budget decrement, reward credit
(2 premium / 1 normal), and the promoter view-counter increment. -/
def handle_claim_promo (db : DB) (uid pid promoterId : Int) : DB × ClaimReply :=
  if has_claimed_promo db uid pid then (db, .alreadyCompleted)
  else
    let dbA := claim_promo db uid pid
    let dbB := decrement_promo_budget dbA pid
    let reward : Int :=
      match get_user dbB uid with
      | some u => if u.is_premium then 2 else 1
      | none => 1
    let dbC := update_user_credits dbB uid reward
    let dbD := increment_clicks_received dbC promoterId
    (dbD, .success reward)

/-- handlers.button_handler dispatch of a claim_ token into
handle_claim_promo; a decode ValueError propagates uncaught. -/
def button_claim_dispatch (db : DB) (uid : Int) (data : String) :
    Except PyExn (DB × ClaimReply) :=
  if pyStartsWith data "claim_" then
    match decode_claim_token data with
    | .error e => .error e
    | .ok (pid, promoterId) => .ok (handle_claim_promo db uid pid promoterId)
  else .ok (db, .alreadyCompleted)

/-- Conversation-state constants of handlers.py relevant to the verified
handlers (ConversationHandler states or END). -/
inductive ConvState where
  | awaitBudget
  | awaitBroadcastCount
  | endConv
  deriving Repr, DecidableEq

/-- The user-visible outcome of the budget-collection step. -/
inductive BudgetReply where
  | invalidNumber
  | invalidAmount (maxCredits : Int)
  | created (budget : Int)
  deriving Repr, DecidableEq

/-- handlers.get_promotion_budget: parse int(text) (ValueError caught:
reply and stay in AWAIT_BUDGET), validate 0 < budget <= credits (reply and
stay), else add the promotion from the saved template and debit the budget.
Subscripting a missing user row would raise an uncaught TypeError. -/
def get_promotion_budget (db : DB) (uid : Int) (text : String)
    (promoTypeToCreate : String) : Except PyExn (DB × ConvState × BudgetReply) :=
  match pyInt? text with
  | none => .ok (db, .awaitBudget, .invalidNumber)
  | some budget =>
    match get_user db uid with
    | none => .error .typeError
    | some u =>
      if ¬ (0 < budget ∧ budget ≤ u.credits) then
        .ok (db, .awaitBudget, .invalidAmount u.credits)
      else
        let dbA :=
          if promoTypeToCreate = "normal" then
            add_promotion db uid "normal" budget none u.normal_promo_text
              u.normal_promo_url u.normal_promo_chat_id u.normal_promo_message_id
          else
            add_promotion db uid "force_join" budget u.force_join_channel_id
              none none none none
        let dbB := update_user_credits dbA uid (-budget)
        .ok (dbB, .endConv, .created budget)

/-- The fan-out delivery loop shared by get_broadcast_count (lines 373-381),
execute_group_share (lines 519-543) and get_broadcast_message: one boolean
per target tells whether the transport call succeeded; a failure is caught,
counted, and the loop continues with the remaining targets. -/
def broadcast_loop (s f : Nat) : List Bool → Nat × Nat
  | [] => (s, f)
  | ok :: rest =>
    if ok then broadcast_loop (s + 1) f rest else broadcast_loop s (f + 1) rest

/-- math.ceil(count / 10) on integers (exact for every int; the float
detour of the source cannot round differently at realistic magnitudes). -/
def ceil_div_ten (count : Int) : Int := -((-count) / 10)

/-- The user-visible outcome of the image-broadcast count step. -/
inductive BroadcastReply where
  | invalidNumber
  | mustBePositive
  | quotaExceeded (left : Int)
  | insufficientFunds (cost credits : Int)
  | complete (sent failed cost : Int)
  deriving Repr, DecidableEq

/-- handlers.get_broadcast_count: parse the requested count, validate it
against the image allowance and the credit cost ceil(count/10), run the
delivery loop over the sampled targets (outcomes holds one transport
outcome per sampled target), then debit the allowance by the succeeded
count and the credits by the full cost. -/
def get_broadcast_count (db : DB) (uid : Int) (text : String)
    (outcomes : List Bool) : Except PyExn (DB × ConvState × BroadcastReply) :=
  match pyInt? text with
  | none => .ok (db, .awaitBroadcastCount, .invalidNumber)
  | some count =>
    match get_user db uid with
    | none => .error .typeError
    | some u =>
      let cost := ceil_div_ten count
      if count ≤ 0 then .ok (db, .awaitBroadcastCount, .mustBePositive)
      else if count > u.image_broadcasts_left then
        .ok (db, .awaitBroadcastCount, .quotaExceeded u.image_broadcasts_left)
      else if cost > u.credits then
        .ok (db, .awaitBroadcastCount, .insufficientFunds cost u.credits)
      else
        let sf := broadcast_loop 0 0 outcomes
        let dbA := use_image_broadcast_run db uid (sf.1 : Int)
        let dbB := update_user_credits dbA uid (-cost)
        .ok (dbB, .endConv, .complete (sf.1 : Int) (sf.2 : Int) cost)

/-- handlers.check_user lines 53-63 for a not-yet-registered user: decode
the start parameter with int() (ValueError caught, leaving inviter unset),
grant +2 referral credits to the inviter only when the decoded id differs
from the new user's own id, then register the user.  The notification
send after the grant only raises caught TelegramErrors and touches no
state, so it is not modelled.  Returns the new store and the boolean the
function returns. -/
def check_user (db : DB) (uid : Int) (uname : String) (args : List String)
    (isPrivateChat : Bool) : DB × Bool :=
  match get_user db uid with
  | some u => if u.is_banned then (db, false) else (db, true)
  | none =>
    let inviter : Option Int :=
      if args ≠ [] ∧ isPrivateChat then pyInt? (args.headD "") else none
    match inviter with
    | some inv =>
      if inv ≠ uid then (add_user (update_referral_credits db inv 2) uid uname (some inv), true)
      else (add_user db uid uname (some inv), true)
    | none => (add_user db uid uname none, true)

/-- The referral-bonus balance of the (first) user row with the given id. -/
def getReferral (db : DB) (uid : Int) : Option Int :=
  (get_user db uid).map (·.referral_credits)

/-- The credit balance of the (first) user row with the given id. -/
def getCredits (db : DB) (uid : Int) : Option Int :=
  (get_user db uid).map (·.credits)

/-! Concrete fixtures used to instantiate the theorems. -/

/-- A user row with the schema defaults of add_user. -/
def baseUser (uid : Int) : UserRow :=
  { user_id := uid, username := "u", credits := 5, referral_credits := 0,
    inviter_id := none, is_premium := false, is_banned := false,
    daily_promo_runs := 2, image_broadcasts_left := 100,
    normal_promo_text := none, normal_promo_url := none,
    normal_promo_chat_id := none, normal_promo_message_id := none,
    force_join_channel_id := none, clicks_received := 0 }

/-- A normal-link promotion row. -/
def basePromo (pid owner budget : Int) : PromoRow :=
  { promo_id := pid, promoter_user_id := owner, promo_type := "normal",
    channel_id := none, promo_text := some "t", promo_url := some "https://e.x",
    budget := budget, promo_chat_id := none, promo_message_id := none }

/-- A small store: three users (one premium, one with a referral bonus),
two live promotions, two admin groups and one non-admin group. -/
def dbA : DB :=
  { users := [baseUser 1, { baseUser 2 with is_premium := true },
              { baseUser 3 with referral_credits := 1 }],
    promotions := [basePromo 1 2 3, basePromo 2 1 5],
    claimed_promos := [],
    groups := [{ group_id := 100, added_by_user_id := 1, is_admin := true },
               { group_id := 101, added_by_user_id := 2, is_admin := true },
               { group_id := 102, added_by_user_id := 3, is_admin := false }],
    next_promo_id := 3 }

/-- A store in which the only promotion is owned by the requesting user,
so the eligible set of the task selector is empty. -/
def dbOwn : DB :=
  { users := [baseUser 7], promotions := [basePromo 1 7 3],
    claimed_promos := [], groups := [], next_promo_id := 2 }

/-! Helper lemmas shared by the claim theorems. -/

/-- find? commutes with a map that preserves the tested predicate. -/
theorem find?_map_pres {α : Type} (f : α → α) (p : α → Bool) (l : List α)
    (hf : ∀ a, p (f a) = p a) : (l.map f).find? p = (l.find? p).map f := by
  induction l with
  | nil => simp
  | cons a t ih =>
    by_cases h : p a = true
    · rw [List.map_cons, List.find?_cons_of_pos _ (by rw [hf a]; exact h),
        List.find?_cons_of_pos _ h, Option.map_some']
    · rw [List.map_cons, List.find?_cons_of_neg _ (by rw [hf a]; simpa using h),
        List.find?_cons_of_neg _ (by simpa using h), ih]

/-- A successful find? in the left part survives an append. -/
theorem find?_append_left {α : Type} (l1 l2 : List α) (p : α → Bool) (a : α)
    (h : l1.find? p = some a) : (l1 ++ l2).find? p = some a := by
  induction l1 with
  | nil => simp at h
  | cons x t ih =>
    by_cases hx : p x = true
    · rw [List.find?_cons_of_pos _ hx] at h
      rw [List.cons_append, List.find?_cons_of_pos _ hx]
      exact h
    · have hx' : ¬ p x = true := hx
      rw [List.find?_cons_of_neg _ hx'] at h
      rw [List.cons_append, List.find?_cons_of_neg _ hx']
      exact ih h

/-- One budget decrement seen through the budget lookup: minus one when
positive, untouched at the zero floor. -/
theorem getBudget_decrement (db : DB) (pid : Int) :
    getBudget (decrement_promo_budget db pid) pid =
      (getBudget db pid).map (fun b => if 0 < b then b - 1 else b) := by
  unfold getBudget decrement_promo_budget
  rw [show ({ db with promotions := db.promotions.map fun p =>
        if p.promo_id = pid ∧ p.budget > 0 then { p with budget := p.budget - 1 } else p } : DB).promotions
      = db.promotions.map (fun p =>
        if p.promo_id = pid ∧ p.budget > 0 then { p with budget := p.budget - 1 } else p) from rfl]
  rw [find?_map_pres]
  · cases h : db.promotions.find? (fun p => p.promo_id = pid) with
    | none => simp
    | some row =>
      have hrow : row.promo_id = pid := by
        have := List.find?_some h
        simpa using this
      by_cases hb : 0 < row.budget
      · simp [hrow, hb]
      · simp [hrow, hb]
  · intro a
    by_cases ha : a.promo_id = pid ∧ a.budget > 0
    · simp [ha, ha.1]
    · simp only [if_neg ha]

/-- The delivery loop counts successes and failures on top of its
accumulators. -/
theorem broadcast_loop_spec (l : List Bool) (s f : Nat) :
    broadcast_loop s f l = (s + l.count true, f + l.count false) := by
  induction l generalizing s f with
  | nil => simp [broadcast_loop]
  | cons b t ih =>
    cases b
    · simp [broadcast_loop, ih, List.count_cons]
      omega
    · simp [broadcast_loop, ih, List.count_cons]
      omega

/-- Successes and failures partition the target list. -/
theorem count_true_add_count_false (l : List Bool) :
    l.count true + l.count false = l.length := by
  induction l with
  | nil => simp
  | cons b t ih =>
    cases b <;> simp [List.count_cons] <;> omega

/-- Inserting a claim makes has_claimed_promo true. -/
theorem has_claimed_after_claim (db : DB) (uid pid : Int) :
    has_claimed_promo (claim_promo db uid pid) uid pid = true := by
  unfold claim_promo has_claimed_promo
  by_cases hmem : (uid, pid) ∈ db.claimed_promos
  · simp [hmem]
  · simp [hmem]

/-- The claim handler answers already-completed and leaves the store
untouched whenever the claim row already exists. -/
theorem handle_claim_promo_claimed (db : DB) (uid pid promoterId : Int)
    (h : has_claimed_promo db uid pid = true) :
    handle_claim_promo db uid pid promoterId = (db, ClaimReply.alreadyCompleted) := by
  unfold handle_claim_promo
  simp [h]

/-- On a fresh claim, the handler appends exactly one claim row. -/
theorem claimed_promos_handle (db : DB) (uid pid promoterId : Int)
    (h : has_claimed_promo db uid pid = false) :
    ((handle_claim_promo db uid pid promoterId).1).claimed_promos
      = db.claimed_promos ++ [(uid, pid)] := by
  have hmem : (uid, pid) ∉ db.claimed_promos := by
    simpa [has_claimed_promo] using h
  unfold handle_claim_promo claim_promo increment_clicks_received
    update_user_credits decrement_promo_budget
  simp [h, hmem]

/-! C2 — claiming the same promotion twice never yields a second reward. -/

/-- C2: for every store, account, promotion and promoter, if the account
has not yet claimed the promotion, then after one successful execution of
the claim handler a second execution returns the store completely
unchanged (so the credit-balance delta is 0 and no claim row, budget
decrement, reward credit or view-counter increment is produced) together
with the already-completed notice. -/
theorem claim2_second_claim_is_noop (db : DB) (uid pid promoterId : Int)
    (h : has_claimed_promo db uid pid = false) :
    handle_claim_promo (handle_claim_promo db uid pid promoterId).1 uid pid promoterId
      = ((handle_claim_promo db uid pid promoterId).1, ClaimReply.alreadyCompleted) := by
  have h1 : has_claimed_promo (handle_claim_promo db uid pid promoterId).1 uid pid = true := by
    unfold has_claimed_promo
    rw [claimed_promos_handle db uid pid promoterId h]
    simp
  exact handle_claim_promo_claimed _ uid pid promoterId h1

/-- Witness for C2 on the concrete store dbA: user 1 claims promotion 1
(owned by user 2) once; the second attempt leaves the store unchanged and
answers already-completed. -/
theorem claim2_witness :
    handle_claim_promo (handle_claim_promo dbA 1 1 2).1 1 1 2
      = ((handle_claim_promo dbA 1 1 2).1, ClaimReply.alreadyCompleted) :=
  claim2_second_claim_is_noop dbA 1 1 2 (by decide)

/-! C3 — budget after N decrements, never negative, no-op at the floor. -/

/-- C3: a promotion whose stored budget is B with 0 ≤ B has budget
B - min(N, B) after N budget-decrement calls, and that value is never
negative; in particular once the budget reaches 0 further decrements are
silent no-ops, so the budget is monotonically non-increasing. -/
theorem claim3_budget_after_n (db : DB) (pid : Int) (B : Int) (N : Nat)
    (h : getBudget db pid = some B) (hB : 0 ≤ B) :
    getBudget (decrementN db pid N) pid = some (B - min (N : Int) B) ∧
      0 ≤ B - min (N : Int) B := by
  induction N with
  | zero =>
    refine ⟨?_, by omega⟩
    have hz : B - min ((0 : Nat) : Int) B = B := by
      push_cast
      omega
    show getBudget db pid = some (B - min ((0 : Nat) : Int) B)
    rw [hz]
    exact h
  | succ n ih =>
    obtain ⟨h1, h2⟩ := ih
    have step : getBudget (decrementN db pid (n + 1)) pid =
        some (if 0 < B - min (n : Int) B then B - min (n : Int) B - 1 else B - min (n : Int) B) := by
      show getBudget (decrement_promo_budget (decrementN db pid n) pid) pid = _
      rw [getBudget_decrement, h1, Option.map_some']
    refine ⟨?_, by omega⟩
    rw [step]
    congr 1
    by_cases hv : 0 < B - min (n : Int) B
    · rw [if_pos hv]
      omega
    · rw [if_neg hv]
      omega

/-- Witness for C3: promotion 1 of dbA starts with budget 3; five
decrements leave budget 3 - min(5, 3) = 0, still non-negative. -/
theorem claim3_witness :
    getBudget (decrementN dbA 1 5) 1 = some (3 - min (5 : Int) 3) ∧
      0 ≤ (3 : Int) - min (5 : Int) 3 :=
  claim3_budget_after_n dbA 1 3 5 (by decide) (by decide)

/-! C6 — daily reset adds the durable referral bonus and resets run caps. -/

/-- C6: one execution of the daily reset maps every account row to the
same row with the referral bonus added into the main credit balance, the
referral-bonus balance itself untouched, and the daily-run counter set to
5 for premium accounts and 2 otherwise. -/
theorem claim6_daily_reset (db : DB) :
    (execute_daily_reset db).users = db.users.map fun u =>
      { u with credits := u.credits + u.referral_credits,
               daily_promo_runs := if u.is_premium then 5 else 2 } := by
  unfold execute_daily_reset
  simp only [List.map_map]
  apply List.map_congr_left
  intro u _
  by_cases hp : u.is_premium
  · simp [Function.comp, hp]
  · simp [Function.comp, hp]

/-! C4 — the task selector honours the three exclusion rules and returns
none instead of erring on an empty eligible set. -/

/-- C4: any promotion returned by the task selector, for any random draw,
has positive budget, is not owned by the requesting account, and carries
no claim by the requesting account; and when no stored promotion satisfies
all three conditions the selector returns none. -/
theorem claim4_task_selector (db : DB) (uid : Int) (pick : Nat) :
    (∀ p, get_random_promotion db uid pick = some p →
        p.budget > 0 ∧ p.promoter_user_id ≠ uid ∧
          has_claimed_promo db uid p.promo_id = false)
    ∧ ((∀ p ∈ db.promotions,
          ¬ (p.promoter_user_id ≠ uid ∧ (uid, p.promo_id) ∉ db.claimed_promos ∧ p.budget > 0)) →
        get_random_promotion db uid pick = none) := by
  constructor
  · intro p hp
    have hmem : p ∈ eligiblePromos db uid := by
      unfold get_random_promotion at hp
      exact List.get?_mem hp
    have hcond := List.of_mem_filter hmem
    simp only [decide_eq_true_eq] at hcond
    refine ⟨hcond.2.2, hcond.1, ?_⟩
    simp [has_claimed_promo, hcond.2.1]
  · intro hall
    have hnil : eligiblePromos db uid = [] := by
      unfold eligiblePromos
      rw [List.filter_eq_nil_iff]
      intro p hp
      simpa using hall p hp
    unfold get_random_promotion
    simp [hnil]

/-- Witness for C4: in dbA the selector hands user 3 the promotion owned
by user 2 and the guarantees hold for it; in dbOwn, where the only
promotion belongs to the requester, the selector returns none. -/
theorem claim4_witness :
    ((basePromo 1 2 3).budget > 0 ∧ (basePromo 1 2 3).promoter_user_id ≠ 3 ∧
        has_claimed_promo dbA 3 (basePromo 1 2 3).promo_id = false)
      ∧ get_random_promotion dbOwn 7 0 = none :=
  ⟨(claim4_task_selector dbA 3 0).1 (basePromo 1 2 3) (by decide),
   (claim4_task_selector dbOwn 7 0).2 (by decide)⟩

/-! C5 — recipient sampling: duplicate free, capped by the limit, and
restricted to the eligible population. -/

/-- A take of a permutation of a filtered list maps to a duplicate-free
key list whenever the source key list is duplicate free. -/
theorem take_map_nodup {α β : Type} (key : α → β) (l src : List α) (n : Nat)
    (hperm : l.Perm src) (hnd : (src.map key).Nodup) :
    ((l.take n).map key).Nodup := by
  have h1 : (l.map key).Nodup := ((hperm.map key).nodup_iff).mpr hnd
  exact List.Nodup.sublist (List.Sublist.map key (List.take_sublist n l)) h1

/-- C5: over any store with primary-key integrity and any randomized
order of the eligible rows, group sampling returns a duplicate-free list
of exactly min(limit, eligible) admin-elevated group ids, and account
sampling returns a duplicate-free list of exactly min(limit, eligible)
ids of non-banned accounts, none equal to the excluded id. -/
theorem claim5_sampling (db : DB) (limit : Nat) (excludeId : Int)
    (hwf : DBWF db) (gOrd : List GroupRow) (uOrd : List UserRow)
    (hg : gOrd.Perm (admin_groups db))
    (hu : uOrd.Perm (eligible_broadcast_users db excludeId)) :
    (get_random_groups gOrd limit).Nodup ∧
    (get_random_groups gOrd limit).length = min limit (admin_groups db).length ∧
    (∀ g ∈ get_random_groups gOrd limit,
        ∃ row ∈ db.groups, row.group_id = g ∧ row.is_admin = true) ∧
    (get_random_users_for_broadcast uOrd limit).Nodup ∧
    (get_random_users_for_broadcast uOrd limit).length
      = min limit (eligible_broadcast_users db excludeId).length ∧
    (∀ i ∈ get_random_users_for_broadcast uOrd limit,
        i ≠ excludeId ∧ ∃ row ∈ db.users, row.user_id = i ∧ row.is_banned = false) := by
  obtain ⟨hndU, hndG, -, -⟩ := hwf
  have hgsrc : ((admin_groups db).map (·.group_id)).Nodup :=
    List.Nodup.sublist (List.Sublist.map _ (List.filter_sublist db.groups)) hndG
  have husrc : ((eligible_broadcast_users db excludeId).map (·.user_id)).Nodup :=
    List.Nodup.sublist (List.Sublist.map _ (List.filter_sublist db.users)) hndU
  refine ⟨take_map_nodup _ gOrd _ limit hg hgsrc, ?_, ?_,
          take_map_nodup _ uOrd _ limit hu husrc, ?_, ?_⟩
  · unfold get_random_groups
    rw [List.length_map, List.length_take, hg.length_eq]
  · intro g hgmem
    unfold get_random_groups at hgmem
    obtain ⟨row, hrow, hkey⟩ := List.exists_of_mem_map hgmem
    have hrow2 : row ∈ admin_groups db :=
      hg.subset (List.take_subset limit gOrd hrow)
    have hcond := List.of_mem_filter hrow2
    exact ⟨row, List.mem_of_mem_filter hrow2, hkey, by simpa using hcond⟩
  · unfold get_random_users_for_broadcast
    rw [List.length_map, List.length_take, hu.length_eq]
  · intro i himem
    unfold get_random_users_for_broadcast at himem
    obtain ⟨row, hrow, hkey⟩ := List.exists_of_mem_map himem
    have hrow2 : row ∈ eligible_broadcast_users db excludeId :=
      hu.subset (List.take_subset limit uOrd hrow)
    have hcond := List.of_mem_filter hrow2
    simp only [decide_eq_true_eq] at hcond
    refine ⟨?_, row, List.mem_of_mem_filter hrow2, hkey, hcond.2⟩
    rw [← hkey]
    exact hcond.1

/-- Witness for C5 on dbA, which has exactly two admin-elevated groups:
with limit 10 the group sample has length min(10, 2) = 2 and no
duplicates, matching the spec scenario. -/
theorem claim5_witness :
    (get_random_groups (admin_groups dbA) 10).length = min 10 (admin_groups dbA).length ∧
      (get_random_groups (admin_groups dbA) 10).Nodup := by
  have h := claim5_sampling dbA 10 3 (by decide) (admin_groups dbA)
    (eligible_broadcast_users dbA 3) (List.Perm.refl _) (List.Perm.refl _)
  exact ⟨h.2.1, h.1⟩

/-! C8 — partial transport failure is counted, never aborts the batch. -/

/-- C8: the delivery loop over N targets of which exactly K fail (and the
rest succeed) runs to completion and reports succeeded = N - K and
failed = K, with K ≤ N. -/
theorem claim8_partial_failure (outcomes : List Bool) (N K : Nat)
    (hN : outcomes.length = N) (hK : outcomes.count false = K) :
    broadcast_loop 0 0 outcomes = (N - K, K) ∧ K ≤ N := by
  have h1 := broadcast_loop_spec outcomes 0 0
  have h2 := count_true_add_count_false outcomes
  constructor
  · rw [h1, Prod.mk.injEq]
    omega
  · omega

/-- Witness for C8: five targets, failures at positions 2, 4 and 5, so the
loop reports 2 successes and 3 failures. -/
theorem claim8_witness :
    broadcast_loop 0 0 [true, false, true, false, false] = (5 - 3, 3) ∧ 3 ≤ 5 :=
  claim8_partial_failure [true, false, true, false, false] 5 3 (by decide) (by decide)

/-! C9 — budget-submission validation mutates nothing and keeps the flow. -/

/-- C9: whenever the submitted budget text is malformed, non-positive, or
exceeds the account's balance, the budget handler returns the store
unchanged (no promotion row, no credit debit), keeps the conversation in
the AWAIT_BUDGET state, and reports the corresponding validation error. -/
theorem claim9_budget_validation (db : DB) (uid : Int) (text promoType : String)
    (u : UserRow) (hu : get_user db uid = some u)
    (hbad : pyInt? text = none ∨
      ∃ b, pyInt? text = some b ∧ ¬ (0 < b ∧ b ≤ u.credits)) :
    ∃ r, get_promotion_budget db uid text promoType
        = .ok (db, ConvState.awaitBudget, r) ∧
      (r = BudgetReply.invalidNumber ∨ r = BudgetReply.invalidAmount u.credits) := by
  unfold get_promotion_budget
  rcases hbad with h | ⟨b, hb, hval⟩
  · rw [h]
    exact ⟨BudgetReply.invalidNumber, rfl, Or.inl rfl⟩
  · rw [hb, hu]
    refine ⟨BudgetReply.invalidAmount u.credits, ?_, Or.inr rfl⟩
    simp [hval]

/-- Witness for C9: user 1 of dbA submits the malformed budget text abc;
the handler stays in AWAIT_BUDGET with the store unchanged. -/
theorem claim9_witness :
    ∃ r, get_promotion_budget dbA 1 "abc" "normal"
        = .ok (dbA, ConvState.awaitBudget, r) ∧
      (r = BudgetReply.invalidNumber ∨ r = BudgetReply.invalidAmount (baseUser 1).credits) :=
  claim9_budget_validation dbA 1 "abc" "normal" (baseUser 1) (by decide) (Or.inl (by decide))

/-! C1 — which debits the image-broadcast flow applies after the fan-out. -/

/-- C1 counterexample: in dbA user 1 (balance 5) requests an image
broadcast to 10 users; both sampled targets fail, so the batch succeeds
for 0 recipients, yet the handler still debits the full cost
ceil(10/10) = 1 credit: the balance drops from 5 to 4, refuting the claim
that a fully-failed batch leaves the sender's credit balance unchanged. -/
theorem claim1_counterexample :
    getCredits dbA 1 = some 5 ∧
    (get_broadcast_count dbA 1 "10" [false, false]).toOption.map
        (fun r => r.2.2) = some (BroadcastReply.complete 0 2 1) ∧
    (get_broadcast_count dbA 1 "10" [false, false]).toOption.map
        (fun r => getCredits r.1 1) = some (some 4) := by
  decide

/-- C1 amended: after the fan-out loop of the image-broadcast handler, the
image-allowance quota debit is computed from the succeeded count only, but
the credit debit equals ceil(requested count / 10) computed from the
requested count regardless of per-target outcomes; a fully-failed batch
therefore still costs ceil(count/10) credits. -/
theorem claim1_amended_debits (db : DB) (uid : Int) (text : String)
    (outcomes : List Bool) (u : UserRow) (count : Int)
    (hu : get_user db uid = some u) (hc : pyInt? text = some count)
    (h1 : 0 < count) (h2 : count ≤ u.image_broadcasts_left)
    (h3 : ceil_div_ten count ≤ u.credits) :
    get_broadcast_count db uid text outcomes =
      .ok (update_user_credits
             (use_image_broadcast_run db uid ((outcomes.count true : Nat) : Int))
             uid (-(ceil_div_ten count)),
           ConvState.endConv,
           BroadcastReply.complete ((outcomes.count true : Nat) : Int)
             ((outcomes.count false : Nat) : Int) (ceil_div_ten count)) := by
  unfold get_broadcast_count
  rw [hc, hu]
  have hA : ¬ count ≤ 0 := by omega
  have hB : ¬ count > u.image_broadcasts_left := by omega
  have hC : ¬ ceil_div_ten count > u.credits := by omega
  simp [hA, hB, hC, broadcast_loop_spec]

/-- Witness for C1 amended: user 1 of dbA requests 10 recipients, one of
the two sampled targets succeeds; the allowance drops by 1 (the succeeded
count) and the balance by the full cost 1. -/
theorem claim1_witness :
    get_broadcast_count dbA 1 "10" [true, false] =
      .ok (update_user_credits
             (use_image_broadcast_run dbA 1 (([true, false].count true : Nat) : Int))
             1 (-(ceil_div_ten 10)),
           ConvState.endConv,
           BroadcastReply.complete (([true, false].count true : Nat) : Int)
             (([true, false].count false : Nat) : Int) (ceil_div_ten 10)) :=
  claim1_amended_debits dbA 1 "10" [true, false] (baseUser 1) 10
    (by decide) (by decide) (by decide) (by decide) (by decide)

/-! C7 — malformed action tokens crash the decoding path. -/

/-- C7 evidence: the well-formed token claim_3_9 decodes, but the
malformed token claim_abc_xyz is dispatched by the claim-button prefix
and its int() conversion raises a ValueError that no surrounding
try/except catches, instead of producing a user-visible invalid-request
reply. -/
theorem claim7_malformed_token_raises :
    decode_claim_token "claim_3_9" = Except.ok (3, 9) ∧
    pyStartsWith "claim_abc_xyz" "claim_" = true ∧
    button_claim_dispatch dbA 1 "claim_abc_xyz" = Except.error PyExn.valueError ∧
    decode_verify_token "verify_1_2_x" = Except.error PyExn.valueError := by
  decide

/-! C10 — referral bonuses exclude self-referral. -/

/-- Rewrites check_user for a fresh user whose start parameter decodes. -/
theorem check_user_new_parse (db : DB) (uid : Int) (uname s : String) (inv : Int)
    (hnew : get_user db uid = none) (hparse : pyInt? s = some inv) :
    check_user db uid uname [s] true
      = if inv ≠ uid
        then (add_user (update_referral_credits db inv 2) uid uname (some inv), true)
        else (add_user db uid uname (some inv), true) := by
  unfold check_user
  simp only [hnew, ne_eq, List.cons_ne_self, not_false_eq_true, true_and,
    List.headD_cons, hparse, if_true]

/-- No row matches a fresh user id, so add_user really appends its row. -/
theorem add_user_users_of_not_mem (db : DB) (uid : Int) (uname : String)
    (inviter : Option Int) (h : db.users.any (fun u => u.user_id = uid) = false) :
    (add_user db uid uname inviter).users = db.users ++ [newUserRow uid uname inviter] := by
  unfold add_user
  rw [if_neg (by simp [h])]

/-- C10: when a new user registers with a start parameter, the +2
referral-bonus grant happens only if the decoded inviter id differs from
the new user's id: with the user's own id every resulting account row is
either an untouched pre-existing row or the freshly inserted row with a
zero referral-bonus balance (no bonus to anyone), while with a different
existing inviter that inviter's referral-bonus balance grows by exactly 2. -/
theorem claim10_no_self_referral (db : DB) (uid : Int) (uname s : String)
    (hnew : get_user db uid = none) :
    (pyInt? s = some uid →
       ∀ r ∈ (check_user db uid uname [s] true).1.users,
         r ∈ db.users ∨ r.referral_credits = 0) ∧
    (∀ inv r0, pyInt? s = some inv → inv ≠ uid → get_user db inv = some r0 →
       getReferral (check_user db uid uname [s] true).1 inv
         = some (r0.referral_credits + 2)) := by
  have hnone : ∀ a ∈ db.users, ¬ a.user_id = uid := by
    intro a ha
    have := List.find?_eq_none.mp hnew a ha
    simpa using this
  have hany : ∀ us : List UserRow, (∀ a ∈ us, ¬ a.user_id = uid) →
      us.any (fun a => a.user_id = uid) = false := by
    intro us hus
    rw [List.any_eq_false]
    intro a ha
    simpa using hus a ha
  constructor
  · intro hself r hr
    have he := check_user_new_parse db uid uname s uid hnew hself
    rw [if_neg (by simp)] at he
    rw [he] at hr
    have hr2 : r ∈ (add_user db uid uname (some uid)).users := hr
    rw [add_user_users_of_not_mem db uid uname (some uid) (hany db.users hnone)] at hr2
    rcases List.mem_append.mp hr2 with hl | hrr
    · exact Or.inl hl
    · right
      have hreq : r = newUserRow uid uname (some uid) := by simpa using hrr
      rw [hreq]
      rfl
  · intro inv r0 hparse hne hr0
    have he := check_user_new_parse db uid uname s inv hnew hparse
    rw [if_pos hne] at he
    rw [he]
    show getReferral (add_user (update_referral_credits db inv 2) uid uname (some inv)) inv
      = some (r0.referral_credits + 2)
    have hidsU : ∀ a ∈ (update_referral_credits db inv 2).users, ¬ a.user_id = uid := by
      intro a ha
      unfold update_referral_credits at ha
      obtain ⟨b, hb, hba⟩ := List.exists_of_mem_map ha
      have hbid := hnone b hb
      by_cases hbi : b.user_id = inv
      · rw [← hba]
        simpa [hbi] using hbid
      · rw [← hba]
        simpa [hbi] using hbid
    have hupd : (update_referral_credits db inv 2).users.find? (fun a => a.user_id = inv)
        = some { r0 with referral_credits := r0.referral_credits + 2 } := by
      have hfu : (update_referral_credits db inv 2).users = db.users.map (fun a =>
          if a.user_id = inv then { a with referral_credits := a.referral_credits + 2 } else a) := rfl
      rw [hfu, find?_map_pres]
      · have hfind : db.users.find? (fun a => a.user_id = inv) = some r0 := hr0
        rw [hfind, Option.map_some']
        have hr0id : r0.user_id = inv := by
          have := List.find?_some hfind
          simpa using this
        rw [if_pos hr0id]
      · intro a
        by_cases hai : a.user_id = inv
        · simp [hai]
        · simp [hai]
    unfold getReferral get_user
    rw [add_user_users_of_not_mem _ _ _ _ (hany _ hidsU)]
    rw [find?_append_left _ _ _ _ hupd]
    rfl

/-- Witness for C10 on dbA: new user 7 starting with inviter parameter 3
raises user 3's referral bonus from 1 to 3; starting with their own id 7,
the inserted row carries a zero bonus and is indeed the only new row. -/
theorem claim10_witness :
    getReferral (check_user dbA 7 "u" ["3"] true).1 3 = some 3 ∧
    ({ baseUser 7 with inviter_id := some 7 } ∈ dbA.users ∨
      ({ baseUser 7 with inviter_id := some 7 } : UserRow).referral_credits = 0) :=
  ⟨(claim10_no_self_referral dbA 7 "u" "3" (by decide)).2 3
      { baseUser 3 with referral_credits := 1 } (by decide) (by decide) (by decide),
   (claim10_no_self_referral dbA 7 "u" "7" (by decide)).1 (by decide)
      { baseUser 7 with inviter_id := some 7 } (by decide)⟩

end PromoBot
